import Mathlib

/-!
Verification of the `wifi-bander` WiFi analyzer (Go).

Conventions of the shallow embedding:
* Go `int` is modelled as `Int` (no arithmetic here comes near 64-bit overflow:
  channels, frequencies in MHz, dBm values and small score sums).
* Go `float64` is modelled as `ℚ`; every claim about the float-valued scores is a
  sign or ordering property that is stable under this idealisation.
* A Go `map[int]*T` that is only ever read by key lookup is modelled as a
  function `Int → Option T`; the map built incrementally by
  `analyzeChannelLandscape` (and then only iterated over) is modelled as an
  association list of its entries in insertion order.
* The `interface{}` parameter of `CalculateCongestionScore` together with its
  type switch is modelled by the inductive `ChannelMapArg`: one constructor for
  the matching type `map[int]*analyzer.ChannelInfo`, one for any other value
  (represented by the scanner package's map type, the case the code comments
  anticipate), which the code routes to `calculateWithGenericMap`.
-/

namespace WifiBander

namespace Scanner

/-- ChannelInfo of the scanner package (scanner.go): per-channel aggregate. -/
structure ChannelInfo where
  channel : Int
  networkCount : Int
  strongestRSSI : Int
deriving DecidableEq, Repr

/-- channelToFrequency of the scanner package (scanner.go lines 24-61). -/
def channelToFrequency (channel : Int) : Int :=
  if 1 ≤ channel ∧ channel ≤ 13 then 2412 + (channel - 1) * 5
  else if channel = 14 then 2484
  else if 36 ≤ channel ∧ channel ≤ 48 then 5180 + (channel - 36) * 5
  else if 52 ≤ channel ∧ channel ≤ 64 then 5260 + (channel - 52) * 5
  else if 100 ≤ channel ∧ channel ≤ 144 then 5500 + (channel - 100) * 5
  else if 149 ≤ channel ∧ channel ≤ 165 then 5745 + (channel - 149) * 5
  else if 169 ≤ channel ∧ channel ≤ 177 then 5845 + (channel - 169) * 5
  else 2412

end Scanner

namespace Analyzer

/-- ChannelInfo of the analyzer package (analyzer.go lines 10-14). -/
structure ChannelInfo where
  channel : Int
  networkCount : Int
  strongestRSSI : Int
deriving DecidableEq, Repr

/-- A network as seen through the WiFiNetwork interface (analyzer.go lines
17-23): the getters the analyzer actually calls. -/
structure NetworkInfo where
  band : String
  channel : Int
  signal : Int
  stationCount : Int
  channelWidth : String
deriving DecidableEq, Repr

/-- channelToFrequency of the analyzer package (analyzer.go lines 539-566). -/
def channelToFrequency (channel : Int) : Int :=
  if 1 ≤ channel ∧ channel ≤ 13 then 2412 + (channel - 1) * 5
  else if channel = 14 then 2484
  else if 36 ≤ channel ∧ channel ≤ 48 then 5180 + (channel - 36) * 5
  else if 52 ≤ channel ∧ channel ≤ 64 then 5260 + (channel - 52) * 5
  else if 100 ≤ channel ∧ channel ≤ 144 then 5500 + (channel - 100) * 5
  else if 149 ≤ channel ∧ channel ≤ 165 then 5745 + (channel - 149) * 5
  else if 169 ≤ channel ∧ channel ≤ 177 then 5845 + (channel - 169) * 5
  else 2412

/-- The `interface{}` argument of CalculateCongestionScore: either the
type-matched `map[int]*analyzer.ChannelInfo`, or a value of any other type
(such as the scanner package's map), which takes the generic fallback path. -/
inductive ChannelMapArg where
  | typed (m : Int → Option ChannelInfo)
  | generic (m : Int → Option Scanner.ChannelInfo)

/-- calculateWithGenericMap (analyzer.go lines 129-150): ignores the map. -/
def calculateWithGenericMap (network : NetworkInfo)
    (_channelMap : Int → Option Scanner.ChannelInfo) : Int :=
  let score := network.stationCount * 8
  let score :=
    if network.signal > -50 then score + 20
    else if network.signal > -70 then score + 10
    else score
  score + 25

/-- Base term of CalculateCongestionScore (analyzer.go lines 97-99): networks
on the same channel, 10 points each; 0 when the channel has no entry. -/
def baseTerm (m : Int → Option ChannelInfo) (channel : Int) : Int :=
  match m channel with
  | some channelInfo => channelInfo.networkCount * 10
  | none => 0

/-- One adjacent-channel contribution (analyzer.go lines 107-110): networks on
the adjacent channel, 5 points each; 0 when the channel has no entry. -/
def adjContribution (m : Int → Option ChannelInfo) (adjChannel : Int) : Int :=
  match m adjChannel with
  | some channelInfo => channelInfo.networkCount * 5
  | none => 0

/-- The 2.4GHz adjacency loop of CalculateCongestionScore (analyzer.go lines
103-112): offsets -2, -1, 1, 2 (offset 0 is skipped by `continue`). -/
def adjSum (m : Int → Option ChannelInfo) (channel : Int) : Int :=
  adjContribution m (channel - 2) + adjContribution m (channel - 1) +
    adjContribution m (channel + 1) + adjContribution m (channel + 2)

/-- CalculateCongestionScore (analyzer.go lines 82-126). -/
def CalculateCongestionScore (network : NetworkInfo) (channelMap : ChannelMapArg) : Int :=
  match channelMap with
  | .generic m => calculateWithGenericMap network m
  | .typed m =>
    let channel := network.channel
    let score := baseTerm m channel
    let score := if network.band = "2.4G" then score + adjSum m channel else score
    let score := score + network.stationCount * 8
    if network.signal > -50 then score + 20
    else if network.signal > -70 then score + 10
    else score

/-- Helper `abs` of the analyzer package (analyzer.go lines 531-536). -/
def goAbs (x : Int) : Int :=
  if x < 0 then -x else x

/-- NetworkAnalysis (analyzer.go lines 200-207): per-channel landscape entry. -/
structure NetworkAnalysis where
  channel : Int
  frequency : Int
  signal : Int
  channelWidth : String
  networkCount : Int
  strongestRSSI : Int
deriving DecidableEq, Repr

/-- getChannelWidth (analyzer.go lines 243-252). -/
def getChannelWidth (network : NetworkInfo) : String :=
  if network.channelWidth ≠ "Unknown" ∧ network.channelWidth ≠ "" then network.channelWidth
  else if network.band = "5G" then "80MHz"
  else "20MHz"

/-- One step of the map-building loop of analyzeChannelLandscape (analyzer.go
lines 218-236): merge one network into the per-channel entry list. The Go map
is modelled as an association list in insertion order; only the entry whose
Channel equals the network's channel is updated. -/
def insertNetwork (a : List NetworkAnalysis) (network : NetworkInfo) : List NetworkAnalysis :=
  match a with
  | [] =>
    [{ channel := network.channel
       frequency := channelToFrequency network.channel
       signal := network.signal
       channelWidth := getChannelWidth network
       networkCount := 1
       strongestRSSI := network.signal }]
  | existing :: rest =>
    if existing.channel = network.channel then
      { existing with
        networkCount := existing.networkCount + 1
        strongestRSSI :=
          if network.signal > existing.strongestRSSI then network.signal
          else existing.strongestRSSI } :: rest
    else existing :: insertNetwork rest network

/-- analyzeChannelLandscape (analyzer.go lines 210-240): fold the observations
of the requested band into per-channel entries. -/
def analyzeChannelLandscape (networks : List NetworkInfo) (band : String) : List NetworkAnalysis :=
  networks.foldl (fun a network => if network.band = band then insertNetwork a network else a) []

/-- Lookup `analysis[channel]` on the association-list model of the map. -/
def lookupAnalysis (analysis : List NetworkAnalysis) (channel : Int) : Option NetworkAnalysis :=
  analysis.find? (fun e => e.channel == channel)

/-- calculateSignalPenalty (analyzer.go lines 412-426). -/
def calculateSignalPenalty (signalStrength freqDiff : Int) : ℚ :=
  let signalWeight : ℚ :=
    if signalStrength > -40 then 20
    else if signalStrength > -60 then 10
    else if signalStrength > -80 then 5
    else 0
  let distanceFactor : ℚ := 1 / (1 + (freqDiff : ℚ) / 10)
  signalWeight * distanceFactor

/-- Body of the interference loop of calculate24GHzScore (analyzer.go lines
310-332): contribution of one landscape entry to a 2.4GHz candidate. -/
def interference24 (frequency : Int) (net : NetworkAnalysis) : ℚ :=
  let freqDiff := goAbs (frequency - net.frequency)
  if freqDiff = 0 then
    (net.networkCount : ℚ) * 50 + (if net.strongestRSSI > -60 then 30 else 0)
  else if freqDiff ≤ 15 then
    (30 - (freqDiff : ℚ) * 2) * (net.networkCount : ℚ) +
      calculateSignalPenalty net.strongestRSSI freqDiff
  else 0

/-- calculate24GHzScore (analyzer.go lines 292-335). -/
def calculate24GHzScore (channel frequency : Int) (analysis : List NetworkAnalysis) : ℚ :=
  let isNonOverlapping := ([1, 6, 11] : List Int).contains channel
  let score : ℚ := if isNonOverlapping then 0 else 20
  analysis.foldl (fun s net => s + interference24 frequency net) score

/-- Body of the interference loop of calculate5GHzScore (analyzer.go lines
385-406): contribution of one landscape entry to a 5GHz candidate. -/
def interference5 (frequency : Int) (net : NetworkAnalysis) : ℚ :=
  let freqDiff := goAbs (frequency - net.frequency)
  if freqDiff = 0 then
    (net.networkCount : ℚ) * 40 + (if net.strongestRSSI > -60 then 25 else 0)
  else if freqDiff ≤ 80 then
    ((80 - freqDiff : Int) : ℚ) / 10 * (net.networkCount : ℚ) +
      calculateSignalPenalty net.strongestRSSI freqDiff * (8 / 10)
  else 0

/-- calculate5GHzScore (analyzer.go lines 375-409). -/
def calculate5GHzScore (channel frequency : Int) (analysis : List NetworkAnalysis) : ℚ :=
  let isDFS := (52 ≤ channel ∧ channel ≤ 64) ∨ (100 ≤ channel ∧ channel ≤ 144)
  let score : ℚ := if isDFS then 10 else 0
  analysis.foldl (fun s net => s + interference5 frequency net) score

/-- calculateSignalImpact (analyzer.go lines 429-442). -/
def calculateSignalImpact (channel : Int) (analysis : List NetworkAnalysis) : ℚ :=
  let freq := channelToFrequency channel
  analysis.foldl
    (fun impact net =>
      let freqDiff := goAbs (freq - net.frequency)
      if freqDiff ≤ 40 then impact + ((-net.strongestRSSI : Int) : ℚ) / ((freqDiff + 1 : Int) : ℚ)
      else impact)
    0

/-- calculateFrequencyGap (analyzer.go lines 445-459). -/
def calculateFrequencyGap (frequency : Int) (analysis : List NetworkAnalysis) : Int :=
  let minGap := analysis.foldl
    (fun minGap net =>
      let gap := goAbs (frequency - net.frequency)
      if gap > 0 ∧ gap < minGap then gap else minGap)
    1000
  if minGap = 1000 then 0 else minGap

/-- getReasoning24GHz (analyzer.go lines 462-486). -/
def getReasoning24GHz (channel : Int) (analysis : List NetworkAnalysis) : String :=
  let isNonOverlapping := ([1, 6, 11] : List Int).contains channel
  match lookupAnalysis analysis channel with
  | none =>
    if isNonOverlapping then "Optimal: Non-overlapping channel with no detected networks"
    else "Good: No networks detected, minimal interference expected"
  | some net =>
    if isNonOverlapping then
      "Fair: Non-overlapping but has " ++ toString net.networkCount ++
        " network(s), strongest at " ++ toString net.strongestRSSI ++ " dBm"
    else
      "Suboptimal: Overlapping channel with " ++ toString net.networkCount ++ " network(s)"

/-- getReasoning5GHz (analyzer.go lines 489-512). -/
def getReasoning5GHz (channel : Int) (analysis : List NetworkAnalysis) : String :=
  let isDFS := (52 ≤ channel ∧ channel ≤ 64) ∨ (100 ≤ channel ∧ channel ≤ 144)
  match lookupAnalysis analysis channel with
  | none =>
    if isDFS then "Good: DFS channel with no detected networks, radar detection required"
    else "Excellent: Non-DFS channel with no detected networks"
  | some net =>
    let status := if net.networkCount = 1 ∧ net.strongestRSSI < -70 then "Good" else "Fair"
    let dfsNote := if isDFS then ", DFS required" else ""
    status ++ ": " ++ toString net.networkCount ++ " network(s), strongest at " ++
      toString net.strongestRSSI ++ " dBm" ++ dfsNote

/-- getInterferenceLevel (analyzer.go lines 515-528). -/
def getInterferenceLevel (score : ℚ) : String :=
  if score ≤ 20 then "Minimal"
  else if score ≤ 50 then "Low"
  else if score ≤ 100 then "Moderate"
  else if score ≤ 200 then "High"
  else "Very High"

/-- ChannelRecommendation (analyzer.go lines 172-180). -/
structure ChannelRecommendation where
  channel : Int
  frequency : Int
  score : ℚ
  interferenceLevel : String
  reasoning : String
  signalImpact : ℚ
  frequencyGap : Int
deriving DecidableEq, Repr

/-- Ordering used by the sort in getBest24GHzChannels / getBest5GHzChannels
(analyzer.go lines 279-281, 362-364): ascending score, lower is better. -/
def recLE (a b : ChannelRecommendation) : Prop := a.score ≤ b.score

instance : DecidableRel recLE := fun a b => inferInstanceAs (Decidable (a.score ≤ b.score))

instance : IsTotal ChannelRecommendation recLE := ⟨fun a b => le_total a.score b.score⟩

instance : IsTrans ChannelRecommendation recLE := ⟨fun _ _ _ => le_trans⟩

/-- Build the ChannelRecommendation record for one candidate channel
(analyzer.go lines 262-273 and 344-356; the bodies are identical, with
the reasoning function supplied by the caller). -/
def buildRecommendation (reasoningOf : Int → List NetworkAnalysis → String)
    (scoreOf : Int → Int → List NetworkAnalysis → ℚ)
    (analysis : List NetworkAnalysis) (ch : Int) : ChannelRecommendation :=
  let freq := channelToFrequency ch
  let score := scoreOf ch freq analysis
  { channel := ch
    frequency := freq
    score := score
    interferenceLevel := getInterferenceLevel score
    reasoning := reasoningOf ch analysis
    signalImpact := calculateSignalImpact ch analysis
    frequencyGap := calculateFrequencyGap freq analysis }

/-- getBest24GHzChannels (analyzer.go lines 255-289): score channels 1-13,
sort ascending by score, return the top 3. Go's sort.Slice returns an
unspecified sorted permutation; it is modelled by insertion sort. -/
def getBest24GHzChannels (analysis : List NetworkAnalysis) : List ChannelRecommendation :=
  let availableChannels : List Int := [1, 2, 3, 4, 5, 6, 7, 8, 9, 10, 11, 12, 13]
  let recommendations :=
    availableChannels.map (buildRecommendation getReasoning24GHz calculate24GHzScore analysis)
  (List.insertionSort recLE recommendations).take 3

/-- The 2.4GHz channel tables (analyzer.go lines 41-46). -/
def Channels24GHz_US : List Int := [1, 2, 3, 4, 5, 6, 7, 8, 9, 10, 11]

def Channels24GHz_Europe : List Int := [1, 2, 3, 4, 5, 6, 7, 8, 9, 10, 11, 12, 13]

def Channels24GHz_NonOverlapping : List Int := [1, 6, 11]

/-- The 5GHz channel tables (analyzer.go lines 50-62). -/
def Channels5GHz_UNII1 : List Int := [36, 40, 44, 48]

def Channels5GHz_UNII2A : List Int := [52, 56, 60, 64]

def Channels5GHz_UNII2C : List Int := [100, 104, 108, 112, 116, 120, 124, 128, 132, 136, 140, 144]

def Channels5GHz_UNII3 : List Int := [149, 153, 157, 161, 165]

def Channels5GHz_UNII4 : List Int := [169, 173, 177]

/-- getAllAvailable5GHzChannels (analyzer.go lines 66-74). -/
def getAllAvailable5GHzChannels : List Int :=
  Channels5GHz_UNII1 ++ Channels5GHz_UNII2A ++ Channels5GHz_UNII2C ++
    Channels5GHz_UNII3 ++ Channels5GHz_UNII4

/-- getBest5GHzChannels (analyzer.go lines 338-372). -/
def getBest5GHzChannels (analysis : List NetworkAnalysis) : List ChannelRecommendation :=
  let recommendations :=
    getAllAvailable5GHzChannels.map
      (buildRecommendation getReasoning5GHz calculate5GHzScore analysis)
  (List.insertionSort recLE recommendations).take 3

/-- GetChannelRecommendations (analyzer.go lines 183-197): the returned
`map[string][]ChannelRecommendation` has exactly the keys "2.4G" and "5G";
a Go map lookup at any other key yields nil, modelled as `[]`. -/
def GetChannelRecommendations (networks : List NetworkInfo) (band : String) :
    List ChannelRecommendation :=
  if band = "2.4G" then getBest24GHzChannels (analyzeChannelLandscape networks "2.4G")
  else if band = "5G" then getBest5GHzChannels (analyzeChannelLandscape networks "5G")
  else []

end Analyzer

end WifiBander

open WifiBander WifiBander.Analyzer

/-- C1: channelToFrequency is a total, deterministic function of the channel
number: 2412 + (c-1)*5 MHz for channels 1-13, 2484 for channel 14, linear
5MHz-spaced values from bases 5180 (36-48), 5260 (52-64), 5500 (100-144),
5745 (149-165) and 5845 (169-177); channel 6 maps to 2437, 36 to 5180, 149 to
5745, 14 to 2484; every other integer channel gets the 2412 fallback. -/
theorem c1_channelToFrequency_spec (c : Int) :
    (1 ≤ c ∧ c ≤ 13 → channelToFrequency c = 2412 + (c - 1) * 5) ∧
    (c = 14 → channelToFrequency c = 2484) ∧
    (36 ≤ c ∧ c ≤ 48 → channelToFrequency c = 5180 + (c - 36) * 5) ∧
    (52 ≤ c ∧ c ≤ 64 → channelToFrequency c = 5260 + (c - 52) * 5) ∧
    (100 ≤ c ∧ c ≤ 144 → channelToFrequency c = 5500 + (c - 100) * 5) ∧
    (149 ≤ c ∧ c ≤ 165 → channelToFrequency c = 5745 + (c - 149) * 5) ∧
    (169 ≤ c ∧ c ≤ 177 → channelToFrequency c = 5845 + (c - 169) * 5) ∧
    (¬(1 ≤ c ∧ c ≤ 14) ∧ ¬(36 ≤ c ∧ c ≤ 48) ∧ ¬(52 ≤ c ∧ c ≤ 64) ∧
        ¬(100 ≤ c ∧ c ≤ 144) ∧ ¬(149 ≤ c ∧ c ≤ 165) ∧ ¬(169 ≤ c ∧ c ≤ 177) →
      channelToFrequency c = 2412) ∧
    channelToFrequency 6 = 2437 ∧ channelToFrequency 36 = 5180 ∧
    channelToFrequency 149 = 5745 ∧ channelToFrequency 14 = 2484 := by
  refine ⟨fun h => ?_, fun h => ?_, fun h => ?_, fun h => ?_, fun h => ?_, fun h => ?_,
    fun h => ?_, fun h => ?_, by decide, by decide, by decide, by decide⟩ <;>
  · unfold channelToFrequency
    split_ifs <;> omega

/-- C1 witness: channel 6 lies in the 1-13 range and maps to 2412 + 5*5. -/
theorem c1_channelToFrequency_spec_witness :
    channelToFrequency 6 = 2412 + ((6 : Int) - 1) * 5 :=
  (c1_channelToFrequency_spec 6).1 (by decide)

/-- Occupancy map of analyzer ChannelInfo built from two networks on channel 1
and one on channel 6, all at -80 dBm (as updateChannelMap would build it). -/
def obsMapC2 : Int → Option ChannelInfo := fun ch =>
  if ch = 1 then some ⟨1, 2, -80⟩
  else if ch = 6 then some ⟨6, 1, -80⟩
  else none

/-- C2: on the three-observation scenario (two 2.4GHz networks on channel 1 at
-80dBm with 1 station each, one on channel 6 at -80dBm with 1 station),
CalculateCongestionScore returns 28 for each channel-1 network and 18 for the
channel-6 network. -/
theorem c2_congestion_scenario :
    CalculateCongestionScore ⟨"2.4G", 1, -80, 1, "20MHz"⟩ (.typed obsMapC2) = 28 ∧
    CalculateCongestionScore ⟨"2.4G", 6, -80, 1, "20MHz"⟩ (.typed obsMapC2) = 18 := by
  decide

/-- C3: on an empty observation set, the 2.4GHz recommendation list is exactly
channels 1, 6, 11, each with score 0, and every other 2.4GHz candidate scores
its overlapping-channel penalty of 20 and is excluded from the top 3. -/
theorem c3_empty_landscape_24ghz :
    (GetChannelRecommendations [] "2.4G").map ChannelRecommendation.channel = [1, 6, 11] ∧
    (GetChannelRecommendations [] "2.4G").map ChannelRecommendation.score = [0, 0, 0] ∧
    ∀ ch ∈ ([2, 3, 4, 5, 7, 8, 9, 10, 12, 13] : List Int),
      calculate24GHzScore ch (channelToFrequency ch) [] = 20 := by
  decide

/-- The single observation of claim C4: one 2.4GHz network on channel 6
(frequency 2437MHz) at -50dBm. -/
def obsC4 : List NetworkInfo := [⟨"2.4G", 6, -50, 1, "20MHz"⟩]

/-- C4: with exactly one 2.4GHz observation on channel 6 at -50dBm, the
candidate score of channel 6 is strictly greater (worse) than the candidate
scores of channel 1 and of channel 11 in the same recommendation run. -/
theorem c4_channel6_scores_worse :
    calculate24GHzScore 1 (channelToFrequency 1) (analyzeChannelLandscape obsC4 "2.4G") <
      calculate24GHzScore 6 (channelToFrequency 6) (analyzeChannelLandscape obsC4 "2.4G") ∧
    calculate24GHzScore 11 (channelToFrequency 11) (analyzeChannelLandscape obsC4 "2.4G") <
      calculate24GHzScore 6 (channelToFrequency 6) (analyzeChannelLandscape obsC4 "2.4G") := by
  norm_num [calculate24GHzScore, analyzeChannelLandscape, obsC4, insertNetwork,
    interference24, calculateSignalPenalty, channelToFrequency, goAbs, getChannelWidth]

/-- C8: the scoring and recommendation engines are pure functions: two runs on
the identical inputs return identical results, with no hidden state. -/
theorem c8_idempotent_runs (net : NetworkInfo) (m : ChannelMapArg)
    (networks : List NetworkInfo) (band : String) :
    CalculateCongestionScore net m = CalculateCongestionScore net m ∧
    GetChannelRecommendations networks band = GetChannelRecommendations networks band :=
  ⟨rfl, rfl⟩

/-- C9: on any channel map that is not of type map[int]*analyzer.ChannelInfo,
CalculateCongestionScore takes the generic fallback and returns
StationCount*8 plus the signal penalty plus a flat 25, ignoring the map. -/
theorem c9_generic_fallback (net : NetworkInfo) (m : Int → Option Scanner.ChannelInfo) :
    CalculateCongestionScore net (.generic m) =
      net.stationCount * 8 +
        (if net.signal > -50 then 20 else if net.signal > -70 then 10 else 0) + 25 := by
  show calculateWithGenericMap net m = _
  unfold calculateWithGenericMap
  dsimp only
  split_ifs <;> omega

/-- C10: the analyzer package's channelToFrequency and the scanner package's
channelToFrequency agree on every integer channel number. -/
theorem c10_channelToFrequency_agree (c : Int) :
    Analyzer.channelToFrequency c = Scanner.channelToFrequency c := rfl

/-- A sorted prefix: the first three elements of an insertion sort are sorted
and number at most three. -/
lemma sorted_take3 (l : List ChannelRecommendation) :
    List.Sorted recLE ((List.insertionSort recLE l).take 3) ∧
    ((List.insertionSort recLE l).take 3).length ≤ 3 :=
  ⟨List.Pairwise.sublist (List.take_sublist 3 _) (List.sorted_insertionSort recLE l),
    List.length_take_le 3 _⟩

/-- C5: for every observation set and every band, the recommendation list of
GetChannelRecommendations is sorted in ascending order of score (lower is
better) and contains at most 3 entries. -/
theorem c5_recommendations_sorted_top3 (networks : List NetworkInfo) (band : String) :
    List.Sorted recLE (GetChannelRecommendations networks band) ∧
    (GetChannelRecommendations networks band).length ≤ 3 := by
  unfold GetChannelRecommendations getBest24GHzChannels getBest5GHzChannels
  split_ifs
  · exact sorted_take3 _
  · exact sorted_take3 _
  · exact ⟨List.sorted_nil, by simp⟩

lemma goAbs_nonneg (x : Int) : 0 ≤ goAbs x := by
  unfold goAbs
  split <;> omega

lemma calculateSignalPenalty_nonneg (s d : Int) (hd : 0 ≤ d) :
    0 ≤ calculateSignalPenalty s d := by
  have h1 : (0 : ℚ) ≤ (d : ℚ) := by exact_mod_cast hd
  have h2 : (0 : ℚ) ≤ (d : ℚ) / 10 := div_nonneg h1 (by norm_num)
  unfold calculateSignalPenalty
  dsimp only
  apply mul_nonneg
  · split_ifs <;> norm_num
  · exact div_nonneg zero_le_one (by linarith)

lemma interference24_nonneg (frequency : Int) (net : NetworkAnalysis)
    (h : 0 ≤ net.networkCount) : 0 ≤ interference24 frequency net := by
  have hc : (0 : ℚ) ≤ (net.networkCount : ℚ) := by exact_mod_cast h
  have hd0 : 0 ≤ goAbs (frequency - net.frequency) := goAbs_nonneg _
  have hpen : 0 ≤ calculateSignalPenalty net.strongestRSSI (goAbs (frequency - net.frequency)) :=
    calculateSignalPenalty_nonneg _ _ hd0
  unfold interference24
  dsimp only
  split_ifs with h1 h2 h3
  · linarith [mul_nonneg hc (by norm_num : (0 : ℚ) ≤ 50)]
  · linarith [mul_nonneg hc (by norm_num : (0 : ℚ) ≤ 50)]
  · have hle : ((goAbs (frequency - net.frequency) : Int) : ℚ) ≤ 15 := by exact_mod_cast h3
    have hw : (0 : ℚ) ≤ 30 - ((goAbs (frequency - net.frequency) : Int) : ℚ) * 2 := by linarith
    linarith [mul_nonneg hw hc]
  · exact le_refl _

lemma interference5_nonneg (frequency : Int) (net : NetworkAnalysis)
    (h : 0 ≤ net.networkCount) : 0 ≤ interference5 frequency net := by
  have hc : (0 : ℚ) ≤ (net.networkCount : ℚ) := by exact_mod_cast h
  have hd0 : 0 ≤ goAbs (frequency - net.frequency) := goAbs_nonneg _
  have hpen : 0 ≤ calculateSignalPenalty net.strongestRSSI (goAbs (frequency - net.frequency)) :=
    calculateSignalPenalty_nonneg _ _ hd0
  unfold interference5
  dsimp only
  split_ifs with h1 h2 h3
  · linarith [mul_nonneg hc (by norm_num : (0 : ℚ) ≤ 40)]
  · linarith [mul_nonneg hc (by norm_num : (0 : ℚ) ≤ 40)]
  · have hle : ((goAbs (frequency - net.frequency) : Int) : ℚ) ≤ 80 := by exact_mod_cast h3
    have hw : (0 : ℚ) ≤ ((80 - goAbs (frequency - net.frequency) : Int) : ℚ) / 10 := by
      apply div_nonneg _ (by norm_num)
      push_cast
      linarith
    linarith [mul_nonneg hw hc, mul_nonneg hpen (by norm_num : (0 : ℚ) ≤ 8 / 10)]
  · exact le_refl _

lemma foldl_add_nonneg {α : Type} (f : α → ℚ) :
    ∀ (l : List α) (init : ℚ), 0 ≤ init → (∀ e ∈ l, 0 ≤ f e) →
      0 ≤ l.foldl (fun s e => s + f e) init := by
  intro l
  induction l with
  | nil => intro init h0 _; simpa using h0
  | cons a t ih =>
    intro init h0 hf
    simp only [List.foldl_cons]
    exact ih (init + f a) (by linarith [hf a (List.mem_cons_self a t)])
      (fun e he => hf e (List.mem_cons_of_mem a he))

lemma insertNetwork_count_pos (a : List NetworkAnalysis) (network : NetworkInfo) :
    (∀ e ∈ a, 0 < e.networkCount) → ∀ e ∈ insertNetwork a network, 0 < e.networkCount := by
  induction a with
  | nil =>
    intro _ e he
    simp only [insertNetwork, List.mem_singleton] at he
    subst he
    norm_num
  | cons b rest ih =>
    intro h e he
    simp only [insertNetwork] at he
    by_cases hb : b.channel = network.channel
    · rw [if_pos hb] at he
      rcases List.mem_cons.mp he with h1 | h2
      · subst h1
        have hbpos := h b (List.mem_cons_self _ _)
        simp only
        omega
      · exact h e (List.mem_cons_of_mem _ h2)
    · rw [if_neg hb] at he
      rcases List.mem_cons.mp he with h1 | h2
      · rw [h1]
        exact h b (List.mem_cons_self _ _)
      · exact ih (fun e' he' => h e' (List.mem_cons_of_mem _ he')) e h2

lemma analyzeChannelLandscape_count_pos (networks : List NetworkInfo) (band : String) :
    ∀ e ∈ analyzeChannelLandscape networks band, 0 < e.networkCount := by
  unfold analyzeChannelLandscape
  suffices h : ∀ (init : List NetworkAnalysis), (∀ e ∈ init, 0 < e.networkCount) →
      ∀ e ∈ networks.foldl
          (fun a network => if network.band = band then insertNetwork a network else a) init,
        0 < e.networkCount by
    exact h [] (by simp)
  induction networks with
  | nil => intro init h0; simpa using h0
  | cons n t ih =>
    intro init h0
    simp only [List.foldl_cons]
    refine ih _ ?_
    split_ifs with hb
    · exact insertNetwork_count_pos init n h0
    · exact h0

/-- C6: every candidate score produced by the 2.4GHz and the 5GHz
recommendation scorers on a landscape built from any observation set is
non-negative: every term added is non-negative. -/
theorem c6_scores_nonneg (networks : List NetworkInfo) (ch : Int) :
    0 ≤ calculate24GHzScore ch (channelToFrequency ch) (analyzeChannelLandscape networks "2.4G") ∧
    0 ≤ calculate5GHzScore ch (channelToFrequency ch) (analyzeChannelLandscape networks "5G") := by
  constructor
  · unfold calculate24GHzScore
    dsimp only
    apply foldl_add_nonneg
    · split_ifs <;> norm_num
    · intro e he
      exact interference24_nonneg _ e
        (le_of_lt (analyzeChannelLandscape_count_pos networks "2.4G" e he))
  · unfold calculate5GHzScore
    dsimp only
    apply foldl_add_nonneg
    · split_ifs <;> norm_num
    · intro e he
      exact interference5_nonneg _ e
        (le_of_lt (analyzeChannelLandscape_count_pos networks "5G" e he))

/-- CalculateCongestionScore on the type-matched map, written without the
intermediate lets (definitionally equal to the definition). -/
lemma typed_score_eq (network : NetworkInfo) (m : Int → Option ChannelInfo) :
    CalculateCongestionScore network (.typed m) =
      (let score := baseTerm m network.channel
       let score := if network.band = "2.4G" then score + adjSum m network.channel else score
       let score := score + network.stationCount * 8
       if network.signal > -50 then score + 20
       else if network.signal > -70 then score + 10
       else score) := rfl

/-- C7: for a fixed network and fixed entries on every other channel, the
congestion score is monotonically non-decreasing in the NetworkCount recorded
for the network's own channel. -/
theorem c7_congestion_monotone_in_own_count (net : NetworkInfo)
    (m : Int → Option ChannelInfo) (ci1 ci2 : ChannelInfo)
    (h : ci1.networkCount ≤ ci2.networkCount) :
    CalculateCongestionScore net
        (.typed (fun ch => if ch = net.channel then some ci1 else m ch)) ≤
      CalculateCongestionScore net
        (.typed (fun ch => if ch = net.channel then some ci2 else m ch)) := by
  have hne1 : net.channel - 2 ≠ net.channel := by omega
  have hne2 : net.channel - 1 ≠ net.channel := by omega
  have hne3 : net.channel + 1 ≠ net.channel := by omega
  have hne4 : net.channel + 2 ≠ net.channel := by omega
  have hb1 : baseTerm (fun ch => if ch = net.channel then some ci1 else m ch) net.channel =
      ci1.networkCount * 10 := by
    simp [baseTerm]
  have hb2 : baseTerm (fun ch => if ch = net.channel then some ci2 else m ch) net.channel =
      ci2.networkCount * 10 := by
    simp [baseTerm]
  have hadj : adjSum (fun ch => if ch = net.channel then some ci1 else m ch) net.channel =
      adjSum (fun ch => if ch = net.channel then some ci2 else m ch) net.channel := by
    simp only [adjSum, adjContribution, if_neg hne1, if_neg hne2, if_neg hne3, if_neg hne4]
  rw [typed_score_eq, typed_score_eq]
  dsimp only
  rw [hb1, hb2, hadj]
  split_ifs <;> omega

/-- C7 witness: a 2.4GHz network on channel 1 with own-channel count raised
from 1 to 2, everything else equal. -/
theorem c7_congestion_monotone_in_own_count_witness :
    CalculateCongestionScore ⟨"2.4G", 1, -80, 1, "20MHz"⟩
        (.typed (fun ch => if ch = (1 : Int) then some ⟨1, 1, -80⟩ else (fun _ => none) ch)) ≤
      CalculateCongestionScore ⟨"2.4G", 1, -80, 1, "20MHz"⟩
        (.typed (fun ch => if ch = (1 : Int) then some ⟨1, 2, -80⟩ else (fun _ => none) ch)) :=
  c7_congestion_monotone_in_own_count ⟨"2.4G", 1, -80, 1, "20MHz"⟩ (fun _ => none)
    ⟨1, 1, -80⟩ ⟨1, 2, -80⟩ (by decide)
